import Mathlib

/-!
Verification development for the Mesh-Forest-Fire wildfire-sensor mesh.

The definitions below are a shallow embedding of the Python sources:
* `Mesh.Relay`  embeds `mesh_relay_node.py` (seen-cache, message
  construction, the accept/forward state machine);
* `Mesh.Base`   embeds `mesh_base_station.py` (per-source alert cooldown,
  incident construction);
* `Mesh.Mongo`  embeds `mesh_base_station_mongo_direct.py`.

Wall-clock times are modelled as integers (seconds), Python floats that
take part in arithmetic (risk scores, coordinates) as rationals, Python
dicts with known keys as structures of `Option` fields (`none` = key
absent), and `dict.get(k, d)` as `Option.getD`.  Side effects (UDP
broadcast, TCP uplink, log lines, backend submission) are returned
explicitly as data.
-/

namespace Mesh

abbrev MsgId := String
abbrev NodeId := String

/-- Sensor reading record carried inside an alert payload
(`payload["sensor_data"]`). -/
structure SensorData where
  temperature : Option ℚ
  humidity : Option ℚ
  air_quality : Option ℚ
  light : Option ℚ
deriving Repr, DecidableEq

/-- A mesh payload dict; the embedding keeps the keys the base stations
read: the `type` discriminant, the risk score and the sensor record. -/
structure Payload where
  type : Option String
  risk : Option ℚ
  sensor_data : Option SensorData
deriving Repr, DecidableEq

/-- `{"lat": ..., "lon": ...}` location dict. -/
structure Location where
  lat : Option ℚ
  lon : Option ℚ
deriving Repr, DecidableEq

/-- A mesh message dict as produced by `new_message` and consumed by
`handle_message`; every field is optional because inbound JSON may omit
any key. -/
structure Msg where
  id : Option MsgId
  src : Option NodeId
  src_location : Option Location
  ttl : Option Int
  ts : Option Int
  route : Option (List NodeId)
  payload : Option Payload
deriving Repr, DecidableEq

namespace Relay

/-- `SEEN_EXPIRY_SEC = 60` from `mesh_relay_node.py`. -/
def SEEN_EXPIRY_SEC : Int := 60

/-- `TTL_DEFAULT = 8` from `mesh_relay_node.py`. -/
def TTL_DEFAULT : Int := 8

/-- The `seen_messages` dict (`msg_id -> timestamp`), embedded as an
association list with pairwise-distinct keys maintained by the
operations below. -/
abbrev SeenCache := List (MsgId × Int)

/-- Dict lookup `seen_messages.get(mid)`. -/
def seenLookup : SeenCache → MsgId → Option Int
  | [], _ => none
  | e :: c, m => if e.1 = m then some e.2 else seenLookup c m

/-- `should_accept` (mesh_relay_node.py lines 82-87): atomically checks
membership and, when absent, records `(msg_id, now())`; returns the
decision together with the updated cache. -/
def should_accept (c : SeenCache) (m : MsgId) (now : Int) : Bool × SeenCache :=
  if (seenLookup c m).isSome then (false, c)
  else (true, (m, now) :: c)

/-- One iteration of `cleanup_seen_loop` (lines 49-57): with
`cutoff = now - SEEN_EXPIRY_SEC`, delete every entry whose timestamp is
strictly below the cutoff. -/
def cleanup_sweep (c : SeenCache) (now : Int) : SeenCache :=
  c.filter (fun e => !(e.2 < now - SEEN_EXPIRY_SEC))

/-- `new_message(payload, ttl)` (lines 69-79); the `uuid.uuid4()` draw is
passed in as `fresh`, `NODE_ID`/`NODE_LOCATION` as parameters. -/
def new_message (nodeId : NodeId) (loc : Location) (fresh : MsgId)
    (payload : Payload) (ttl : Int) (now : Int) : Msg :=
  { id := some fresh
    src := some nodeId
    src_location := some loc
    ttl := some ttl
    ts := some now
    route := some [nodeId]
    payload := some payload }

/-- `send_new` (lines 95-99): builds a fresh message and hands it to
`send_raw`; returns the broadcast list.  Note it never touches
`seen_messages`. -/
def send_new (nodeId : NodeId) (loc : Location) (fresh : MsgId)
    (payload : Payload) (ttl : Int) (now : Int) : List Msg :=
  [new_message nodeId loc fresh payload ttl now]

/-- Python truthiness of the `id` field: `not msg_id` holds when the key
is absent or the string is empty. -/
def idFalsy : Option MsgId → Bool
  | none => true
  | some s => s = ""

/-- The observable outcome of one `handle_message` call: the seen-cache
after the call, the `send_raw` broadcasts, the `forward_to_laptop`
uplinks, and whether a local receive log line was printed. -/
structure HandleResult where
  cache : SeenCache
  broadcasts : List Msg
  uplinks : List Msg
  deliveredLocally : Bool
deriving Repr, DecidableEq

/-- `handle_message` (mesh_relay_node.py lines 102-143).  Reads
`id`/`src`/`ttl` (ttl defaulting to 0), drops malformed input before the
dedup step, drops duplicates, delivers terminally at `ttl <= 0`, and
otherwise rebroadcasts a shallow copy with `ttl - 1` and its own id
appended to a fresh route list, uplinking the same copy. -/
def handle_message (nodeId : NodeId) (c : SeenCache) (msg : Msg)
    (now : Int) : HandleResult :=
  let ttl := msg.ttl.getD 0
  if idFalsy msg.id ∨ msg.src = none then
    ⟨c, [], [], false⟩
  else
    let mid := msg.id.getD ""
    let acc := should_accept c mid now
    if !acc.1 then
      ⟨acc.2, [], [], false⟩
    else if ttl ≤ 0 then
      ⟨acc.2, [], [], true⟩
    else
      let fwd0 : Msg := { msg with ttl := some (ttl - 1) }
      let route := fwd0.route.getD [] ++ [nodeId]
      let fwd : Msg := { fwd0 with route := some route }
      ⟨acc.2, [fwd], [fwd], true⟩

end Relay

/-- Python `int()` on a rational: truncation toward zero, i.e. the
truncating division of the numerator by the denominator. -/
def pyTrunc (q : ℚ) : Int :=
  q.num.tdiv q.den

/-- `payload = msg.get("payload", {})`: an absent payload behaves as an
empty dict, on which every `.get` misses. -/
def emptyPayload : Payload := ⟨none, none, none⟩

/-- `src_location = msg.get("src_location", {})`. -/
def emptyLocation : Location := ⟨none, none⟩

namespace Base

/-- `ALERT_COOLDOWN_SECONDS = 60` from `mesh_base_station.py`. -/
def ALERT_COOLDOWN_SECONDS : Int := 60

/-- `BASE_NODE_ID = "Base_001"`. -/
def BASE_NODE_ID : NodeId := "Base_001"

/-- The `last_alert_times` dict (`node_id -> timestamp`), embedded as an
association list with pairwise-distinct keys. -/
abbrev AlertState := List (NodeId × Int)

/-- Dict lookup `last_alert_times.get(node_id)`. -/
def alertLookup : AlertState → NodeId → Option Int
  | [], _ => none
  | e :: s, n => if e.1 = n then some e.2 else alertLookup s n

/-- Dict assignment `last_alert_times[node_id] = t`: overwrite the
existing entry or insert a new one. -/
def alertSet (s : AlertState) (n : NodeId) (t : Int) : AlertState :=
  if (alertLookup s n).isSome then
    s.map (fun e => if e.1 = n then (n, t) else e)
  else (n, t) :: s

/-- `should_alert(node_id)` (mesh_base_station.py lines 37-60): true on a
first alert or when `now - last_alert >= ALERT_COOLDOWN_SECONDS`, each
time recording `now`; false (state untouched) inside the cooldown. -/
def should_alert (s : AlertState) (n : NodeId) (now : Int) :
    Bool × AlertState :=
  match alertLookup s n with
  | none => (true, alertSet s n now)
  | some last =>
    if now - last ≥ ALERT_COOLDOWN_SECONDS then (true, alertSet s n now)
    else (false, s)

/-- The incident record built by `handle_message` (lines 184-221) for
submission to the API gateway; constant-valued JSON fields are kept so
the record matches the source shape. -/
structure Incident where
  incidentId : Option MsgId
  type : String
  severity : Int
  status : String
  originNodeId : NodeId
  detectionMethod : String
  detectedAt : Int
  coordinates : ℚ × ℚ
  regionCode : String
  traversalPath : List (Nat × NodeId)
  baseNodeId : NodeId
  receivedAt : Int
  processingStatus : String
  risk : ℚ
  sensor_data : Option SensorData
deriving Repr, DecidableEq

/-- The incident-building part of `handle_message` (lines 174-221): risk
defaults to 0.8, severity is `max(1, min(10, int(risk * 10)))`,
coordinates are `[lon, lat]` with 0 defaults, the traversal path
enumerates the route. -/
def buildIncident (msg : Msg) (now : Int) : Incident :=
  let payload := msg.payload.getD emptyPayload
  let src_node := msg.src.getD "unknown"
  let src_location := msg.src_location.getD emptyLocation
  let route := msg.route.getD []
  let risk := payload.risk.getD (4 / 5)
  let severity := max 1 (min 10 (pyTrunc (risk * 10)))
  { incidentId := msg.id
    type := "fire"
    severity := severity
    status := "open"
    originNodeId := src_node
    detectionMethod := "sensor"
    detectedAt := now
    coordinates := (src_location.lon.getD 0, src_location.lat.getD 0)
    regionCode := "UNKNOWN"
    traversalPath := route.enum
    baseNodeId := BASE_NODE_ID
    receivedAt := now
    processingStatus := "queued"
    risk := risk
    sensor_data := payload.sensor_data }

/-- Outcome of one base-station `handle_message` call: whether
`trigger_alerts` ran, the incident submitted to the API gateway (if
any), and the cooldown table afterwards. -/
structure BaseResult where
  alertTriggered : Bool
  incident : Option Incident
  state : AlertState
deriving Repr, DecidableEq

/-- `handle_message` (mesh_base_station.py lines 150-233): non-alert
payloads are discarded; for alerts the cooldown gates only
`trigger_alerts`, and the incident is always built and submitted. -/
def handle_message (s : AlertState) (msg : Msg) (now : Int) : BaseResult :=
  let payload := msg.payload.getD emptyPayload
  if payload.type ≠ some "alert" then
    ⟨false, none, s⟩
  else
    let src_node := msg.src.getD "unknown"
    let alert := should_alert s src_node now
    ⟨alert.1, some (buildIncident msg now), alert.2⟩

end Base

namespace Mongo

/-- `BASE_NODE_ID = "Base_001"` from `mesh_base_station_mongo_direct.py`. -/
def BASE_NODE_ID : NodeId := "Base_001"

/-- Whether `needle` starts the character list `hay`. -/
def charsStartWith : List Char → List Char → Bool
  | [], _ => true
  | _ :: _, [] => false
  | a :: as, b :: bs => a == b && charsStartWith as bs

/-- Whether `needle` occurs contiguously inside `hay`. -/
def charsContain (needle : List Char) : List Char → Bool
  | [] => needle.isEmpty
  | b :: bs => charsStartWith needle (b :: bs) || charsContain needle bs

/-- Python `needle in hay` on strings: substring containment. -/
def strContains (hay needle : String) : Bool :=
  charsContain needle.toList hay.toList

/-- Node-type classification of a route entry (lines 136-144 of
`mesh_base_station_mongo_direct.py`). -/
def nodeTypeOf (n : NodeId) : String :=
  if strContains n "Sentry" || strContains n "Sensor" then "edge"
  else if strContains n "Relay" then "relay"
  else if strContains n "Base" then "base"
  else "relay"

/-- The `risk_value = payload.get("risk")` severity rule (lines
100-106): a numeric risk inside `[0, 1]` is scaled with
`max(1, min(10, int(risk_value * 10)))`, anything else falls back to the
fixed severity 8. -/
def mongoSeverity (risk : Option ℚ) : Int :=
  match risk with
  | some q => if 0 ≤ q ∧ q ≤ 1 then max 1 (min 10 (pyTrunc (q * 10))) else 8
  | none => 8

/-- The MongoDB incident document assembled by `create_incident` plus
the traversal hops and the final `update_base_receipt_status` call;
`mongo_interface.create_incident` clamps the severity once more
(`max(1, min(10, severity))`, mongo_interface.py line 163). -/
structure MongoIncident where
  incident_type : String
  severity : Int
  origin_node_id : Option NodeId
  detection_method : String
  coordinates : ℚ × ℚ
  region_code : String
  base_node_id : NodeId
  summary : Option ℚ × Option ℚ
  raw_sensor_data : Option SensorData
  raw_message_id : Option MsgId
  raw_timestamp : Option Int
  incident_id : Option MsgId
  hops : List (NodeId × String)
  processingStatus : String
deriving Repr, DecidableEq

/-- Outcome of one mongo-direct `handle_message` call: whether
`trigger_alerts` ran and the incident stored in MongoDB (none when the
message is not an alert or MongoDB is unavailable). -/
structure MongoResult where
  alertTriggered : Bool
  incident : Option MongoIncident
deriving Repr, DecidableEq

/-- `handle_message` (mesh_base_station_mongo_direct.py lines 73-163):
non-alert payloads are discarded; for alerts `trigger_alerts` runs
unconditionally (there is no cooldown table in this implementation),
then, if MongoDB is available, an incident document is created, one
traversal hop added per route entry, and the receipt status set to
"completed". -/
def handle_message (mongoAvailable : Bool) (msg : Msg) : MongoResult :=
  let payload := msg.payload.getD emptyPayload
  if payload.type ≠ some "alert" then
    ⟨false, none⟩
  else
    let src_node := msg.src
    let src_location := msg.src_location.getD emptyLocation
    let route := msg.route.getD []
    let sensor_data := payload.sensor_data
    let lng := src_location.lon.getD 0
    let lat := src_location.lat.getD 0
    let severity := mongoSeverity payload.risk
    let summary := ((sensor_data.getD ⟨none, none, none, none⟩).temperature,
      (sensor_data.getD ⟨none, none, none, none⟩).humidity)
    if !mongoAvailable then
      ⟨true, none⟩
    else
      ⟨true, some
        { incident_type := "fire"
          severity := max 1 (min 10 severity)
          origin_node_id := src_node
          detection_method := "sensor"
          coordinates := (lng, lat)
          region_code := "BC-VAN"
          base_node_id := BASE_NODE_ID
          summary := summary
          raw_sensor_data := sensor_data
          raw_message_id := msg.id
          raw_timestamp := msg.ts
          incident_id := msg.id
          hops := route.map (fun n => (n, nodeTypeOf n))
          processingStatus := "completed" }⟩

end Mongo

/-! ### Helper lemmas about the seen-cache -/

namespace Relay

theorem seenLookup_cons_self (m : MsgId) (t : Int) (c : SeenCache) :
    seenLookup ((m, t) :: c) m = some t := by
  simp [seenLookup]

theorem seenLookup_filter_none (c : SeenCache) (m : MsgId)
    (p : MsgId × Int → Bool) (h : seenLookup c m = none) :
    seenLookup (c.filter p) m = none := by
  induction c with
  | nil => simp [seenLookup]
  | cons e tl ih =>
    by_cases he : e.1 = m
    · simp [seenLookup, he] at h
    · rw [seenLookup] at h
      simp only [he, if_false] at h
      cases hp : p e <;>
        simp [List.filter_cons, hp, seenLookup, he, ih h]

theorem should_accept_fresh (c : SeenCache) (m : MsgId) (t : Int)
    (h : seenLookup c m = none) :
    should_accept c m t = (true, (m, t) :: c) := by
  simp [should_accept, h]

theorem should_accept_seen (c : SeenCache) (m : MsgId) (t : Int)
    (h : (seenLookup c m).isSome) :
    should_accept c m t = (false, c) := by
  simp [should_accept, h]

/-- Unfolding of `handle_message` on a well-formed, first-seen message
with positive ttl: the message is recorded, forwarded once on broadcast
and once on the uplink, with decremented ttl and extended route. -/
theorem handle_message_forward (n : NodeId) (c : SeenCache) (msg : Msg)
    (now : Int) (mid : MsgId) (hid : msg.id = some mid) (hne : mid ≠ "")
    (hsrc : msg.src ≠ none) (hfresh : seenLookup c mid = none)
    (httl : 0 < msg.ttl.getD 0) :
    handle_message n c msg now =
      ⟨(mid, now) :: c,
       [{ msg with
            ttl := some (msg.ttl.getD 0 - 1)
            route := some (msg.route.getD [] ++ [n]) }],
       [{ msg with
            ttl := some (msg.ttl.getD 0 - 1)
            route := some (msg.route.getD [] ++ [n]) }],
       true⟩ := by
  rw [handle_message]
  simp only [hid, idFalsy, hne, Option.getD_some]
  rw [if_neg (by simp [hne, hsrc]), should_accept_fresh c mid now hfresh]
  simp only [Bool.not_true, Bool.false_eq_true, if_false]
  rw [if_neg (by omega)]

/-- Unfolding of `handle_message` on a well-formed, first-seen message
with exhausted ttl: the message is recorded and locally delivered, but
neither broadcast nor uplinked. -/
theorem handle_message_terminal (n : NodeId) (c : SeenCache) (msg : Msg)
    (now : Int) (mid : MsgId) (hid : msg.id = some mid) (hne : mid ≠ "")
    (hsrc : msg.src ≠ none) (hfresh : seenLookup c mid = none)
    (httl : msg.ttl.getD 0 ≤ 0) :
    handle_message n c msg now = ⟨(mid, now) :: c, [], [], true⟩ := by
  rw [handle_message]
  simp only [hid, idFalsy, hne, Option.getD_some]
  rw [if_neg (by simp [hne, hsrc]), should_accept_fresh c mid now hfresh]
  simp only [Bool.not_true, Bool.false_eq_true, if_false]
  rw [if_pos httl]

/-- Unfolding of `handle_message` on a message missing `id` or `src`:
dropped before the dedup step with no side effect. -/
theorem handle_message_malformed (n : NodeId) (c : SeenCache) (msg : Msg)
    (now : Int) (h : msg.id = none ∨ msg.src = none) :
    handle_message n c msg now = ⟨c, [], [], false⟩ := by
  rcases h with h | h
  · simp [handle_message, idFalsy, h]
  · simp [handle_message, h]

/-- Unfolding of `handle_message` on a well-formed duplicate: dropped
with no side effect. -/
theorem handle_message_duplicate (n : NodeId) (c : SeenCache) (msg : Msg)
    (now : Int) (mid : MsgId) (hid : msg.id = some mid) (hne : mid ≠ "")
    (hsrc : msg.src ≠ none) (hdup : (seenLookup c mid).isSome) :
    handle_message n c msg now = ⟨c, [], [], false⟩ := by
  rw [handle_message]
  simp only [hid, idFalsy, hne, Option.getD_some]
  rw [if_neg (by simp [hne, hsrc]), should_accept_seen c mid now hdup]
  simp

end Relay

/-! ### Claim theorems about the relay node -/

/-- C1: for every message id, `should_accept` returns true on the first
call and false on every subsequent call (leaving the cache unchanged)
until a cleanup sweep runs at a time `t1` with
`t1 - first_seen > SEEN_EXPIRY_SEC` (60 s); after that sweep the next
call for the id returns true again. -/
theorem seen_cache_accept_once_until_sweep (c : Relay.SeenCache)
    (m : MsgId) (t0 t1 t2 : Int) (hfresh : Relay.seenLookup c m = none)
    (hexp : t1 - t0 > Relay.SEEN_EXPIRY_SEC) :
    (Relay.should_accept c m t0).1 = true ∧
    (∀ t, Relay.should_accept (Relay.should_accept c m t0).2 m t
        = (false, (Relay.should_accept c m t0).2)) ∧
    (Relay.should_accept
        (Relay.cleanup_sweep (Relay.should_accept c m t0).2 t1) m t2).1
      = true := by
  have h1 : Relay.should_accept c m t0 = (true, (m, t0) :: c) :=
    Relay.should_accept_fresh c m t0 hfresh
  refine ⟨by rw [h1], ?_, ?_⟩
  · intro t
    rw [h1]
    exact Relay.should_accept_seen _ m t
      (by rw [Relay.seenLookup_cons_self]; rfl)
  · rw [h1]
    have hdrop : Relay.cleanup_sweep ((m, t0) :: c) t1
        = Relay.cleanup_sweep c t1 := by
      have hlt : t0 < t1 - Relay.SEEN_EXPIRY_SEC := by
        have h60 : Relay.SEEN_EXPIRY_SEC = 60 := rfl
        rw [h60] at hexp ⊢
        omega
      simp [Relay.cleanup_sweep, List.filter_cons, hlt]
    rw [hdrop]
    have hnone : Relay.seenLookup (Relay.cleanup_sweep c t1) m = none := by
      rw [Relay.cleanup_sweep]
      exact Relay.seenLookup_filter_none c m _ hfresh
    rw [Relay.should_accept_fresh _ m t2 hnone]

/-- Witness for C1 at `c = []`, `m = "m"`, first seen at 0, swept at 61,
re-offered at 61. -/
theorem seen_cache_accept_once_until_sweep_witness :
    Relay.seenLookup [] "m" = none
    ∧ (61 : Int) - 0 > Relay.SEEN_EXPIRY_SEC
    ∧ ((Relay.should_accept [] "m" 0).1 = true ∧
       (∀ t, Relay.should_accept (Relay.should_accept [] "m" 0).2 "m" t
           = (false, (Relay.should_accept [] "m" 0).2)) ∧
       (Relay.should_accept
           (Relay.cleanup_sweep (Relay.should_accept [] "m" 0).2 61) "m" 61).1
         = true) :=
  ⟨rfl, by decide,
    seen_cache_accept_once_until_sweep [] "m" 0 61 61 rfl (by decide)⟩

/-- C2: an accepted (well-formed, non-duplicate) message with positive
ttl is forwarded exactly once with ttl decremented by exactly 1; with
ttl 0 nothing is broadcast, though the message is still locally
delivered/logged. -/
theorem ttl_decrement_and_no_rebroadcast_at_zero (n : NodeId)
    (c : Relay.SeenCache) (msg : Msg) (now : Int) (mid : MsgId)
    (hid : msg.id = some mid) (hne : mid ≠ "") (hsrc : msg.src ≠ none)
    (hfresh : Relay.seenLookup c mid = none) :
    (0 < msg.ttl.getD 0 →
      ∃ fwd, (Relay.handle_message n c msg now).broadcasts = [fwd]
        ∧ fwd.ttl = some (msg.ttl.getD 0 - 1)) ∧
    (msg.ttl.getD 0 = 0 →
      (Relay.handle_message n c msg now).broadcasts = []
        ∧ (Relay.handle_message n c msg now).deliveredLocally = true) := by
  constructor
  · intro httl
    rw [Relay.handle_message_forward n c msg now mid hid hne hsrc hfresh httl]
    exact ⟨_, rfl, rfl⟩
  · intro httl
    rw [Relay.handle_message_terminal n c msg now mid hid hne hsrc hfresh
      (by omega)]
    exact ⟨rfl, rfl⟩

/-- Witness for C2 at a message with ttl 3 (forwarded with ttl 2) and at
the same message with ttl 0 (delivered, not rebroadcast); hypotheses are
discharged at the ttl-3 instance. -/
theorem ttl_decrement_and_no_rebroadcast_at_zero_witness :
    ((⟨some "m1", some "Sentry_001", none, some 3, none,
        some ["Sentry_001"], none⟩ : Msg).id = some "m1"
    ∧ "m1" ≠ ""
    ∧ (⟨some "m1", some "Sentry_001", none, some 3, none,
        some ["Sentry_001"], none⟩ : Msg).src ≠ none
    ∧ Relay.seenLookup [] "m1" = none)
    ∧ ((0 < ((⟨some "m1", some "Sentry_001", none, some 3, none,
          some ["Sentry_001"], none⟩ : Msg).ttl.getD 0) →
        ∃ fwd, (Relay.handle_message "Relay_001" []
            (⟨some "m1", some "Sentry_001", none, some 3, none,
              some ["Sentry_001"], none⟩ : Msg) 5).broadcasts = [fwd]
          ∧ fwd.ttl = some ((⟨some "m1", some "Sentry_001", none, some 3,
              none, some ["Sentry_001"], none⟩ : Msg).ttl.getD 0 - 1)) ∧
      ((⟨some "m1", some "Sentry_001", none, some 3, none,
          some ["Sentry_001"], none⟩ : Msg).ttl.getD 0 = 0 →
        (Relay.handle_message "Relay_001" []
            (⟨some "m1", some "Sentry_001", none, some 3, none,
              some ["Sentry_001"], none⟩ : Msg) 5).broadcasts = []
          ∧ (Relay.handle_message "Relay_001" []
              (⟨some "m1", some "Sentry_001", none, some 3, none,
                some ["Sentry_001"], none⟩ : Msg) 5).deliveredLocally
            = true)) :=
  ⟨⟨rfl, by decide, by decide, rfl⟩,
    ttl_decrement_and_no_rebroadcast_at_zero "Relay_001" [] _ 5 "m1" rfl
      (by decide) (by decide) rfl⟩

/-- C3: the forwarded copy's route is the received route with the
forwarding node's own id appended (a new sequence, distinct from the
received one, which the pure embedding leaves untouched); forwarding
through `A` then `B` yields `route ++ [A] ++ [B]`; and a freshly
originated message has `src = some o` and `route = [o]`. -/
theorem route_accumulation_and_freshness (A : NodeId)
    (c : Relay.SeenCache) (msg : Msg) (now : Int) (mid : MsgId)
    (hid : msg.id = some mid) (hne : mid ≠ "") (hsrc : msg.src ≠ none)
    (hfresh : Relay.seenLookup c mid = none) (httl : 0 < msg.ttl.getD 0) :
    ∃ fwd, (Relay.handle_message A c msg now).broadcasts = [fwd]
      ∧ fwd.route = some (msg.route.getD [] ++ [A])
      ∧ fwd.route ≠ msg.route
      ∧ (∀ (B : NodeId) (cB : Relay.SeenCache) (now2 : Int),
          Relay.seenLookup cB mid = none → 1 < msg.ttl.getD 0 →
          ∃ fwd2, (Relay.handle_message B cB fwd now2).broadcasts = [fwd2]
            ∧ fwd2.route = some (msg.route.getD [] ++ [A] ++ [B]))
      ∧ (∀ (o : NodeId) (loc : Location) (f : MsgId) (p : Payload)
          (ttl t : Int),
          (Relay.new_message o loc f p ttl t).src = some o
            ∧ (Relay.new_message o loc f p ttl t).route = some [o]) := by
  rw [Relay.handle_message_forward A c msg now mid hid hne hsrc hfresh httl]
  refine ⟨_, rfl, rfl, ?_, ?_, ?_⟩
  · cases hr : msg.route with
    | none => simp
    | some r =>
      simp only [hr, Option.getD_some, Option.some.injEq, ne_eq]
      intro hcontra
      have := congrArg List.length hcontra
      simp at this
  · intro B cB now2 hfreshB httl2
    have h2 := Relay.handle_message_forward B cB
      { msg with
          ttl := some (msg.ttl.getD 0 - 1)
          route := some (msg.route.getD [] ++ [A]) }
      now2 mid hid hne hsrc hfreshB
      (by show 0 < (msg.ttl.getD 0 - 1); omega)
    rw [h2]
    exact ⟨_, rfl, by simp⟩
  · intro o loc f p ttl t
    exact ⟨rfl, rfl⟩

/-- Witness for C3 at a two-entry route being extended by
`"Relay_001"`. -/
theorem route_accumulation_and_freshness_witness :
    ((⟨some "m2", some "Sentry_001", none, some 8, none,
        some ["Sentry_001"], none⟩ : Msg).id = some "m2"
    ∧ "m2" ≠ ""
    ∧ (⟨some "m2", some "Sentry_001", none, some 8, none,
        some ["Sentry_001"], none⟩ : Msg).src ≠ none
    ∧ Relay.seenLookup [] "m2" = none
    ∧ 0 < ((⟨some "m2", some "Sentry_001", none, some 8, none,
        some ["Sentry_001"], none⟩ : Msg).ttl.getD 0))
    ∧ (∃ fwd, (Relay.handle_message "Relay_001" []
          (⟨some "m2", some "Sentry_001", none, some 8, none,
            some ["Sentry_001"], none⟩ : Msg) 7).broadcasts = [fwd]
        ∧ fwd.route = some ((⟨some "m2", some "Sentry_001", none, some 8,
            none, some ["Sentry_001"], none⟩ : Msg).route.getD []
              ++ ["Relay_001"])
        ∧ fwd.route ≠ (⟨some "m2", some "Sentry_001", none, some 8, none,
            some ["Sentry_001"], none⟩ : Msg).route
        ∧ (∀ (B : NodeId) (cB : Relay.SeenCache) (now2 : Int),
            Relay.seenLookup cB "m2" = none →
            1 < ((⟨some "m2", some "Sentry_001", none, some 8, none,
              some ["Sentry_001"], none⟩ : Msg).ttl.getD 0) →
            ∃ fwd2, (Relay.handle_message B cB fwd now2).broadcasts = [fwd2]
              ∧ fwd2.route = some ((⟨some "m2", some "Sentry_001", none,
                  some 8, none, some ["Sentry_001"], none⟩ :
                    Msg).route.getD [] ++ ["Relay_001"] ++ [B]))
        ∧ (∀ (o : NodeId) (loc : Location) (f : MsgId) (p : Payload)
            (ttl t : Int),
            (Relay.new_message o loc f p ttl t).src = some o
              ∧ (Relay.new_message o loc f p ttl t).route = some [o])) :=
  ⟨⟨rfl, by decide, by decide, rfl, by decide⟩,
    route_accumulation_and_freshness "Relay_001" [] _ 7 "m2" rfl
      (by decide) (by decide) rfl (by decide)⟩

/-- C8: an inbound message missing the `id` or the `src` key is dropped
before the dedup step: no broadcast, no uplink, no local delivery, and
the seen-cache is unchanged. -/
theorem malformed_message_dropped (n : NodeId) (c : Relay.SeenCache)
    (msg : Msg) (now : Int) (h : msg.id = none ∨ msg.src = none) :
    Relay.handle_message n c msg now = ⟨c, [], [], false⟩ :=
  Relay.handle_message_malformed n c msg now h

/-- Witness for C8 at a message carrying `src` but no `id`. -/
theorem malformed_message_dropped_witness :
    ((⟨none, some "Sentry_001", none, some 8, none, none, none⟩ :
        Msg).id = none
      ∨ (⟨none, some "Sentry_001", none, some 8, none, none, none⟩ :
        Msg).src = none)
    ∧ Relay.handle_message "Relay_001" [("old", 3)]
        (⟨none, some "Sentry_001", none, some 8, none, none, none⟩ : Msg) 9
      = ⟨[("old", 3)], [], [], false⟩ :=
  ⟨Or.inl rfl,
    malformed_message_dropped "Relay_001" [("old", 3)] _ 9 (Or.inl rfl)⟩

/-- C9: a message carrying `id` and `src` but no `ttl` key defaults to
ttl 0 and is handled as Terminal, not Malformed: its id is recorded in
the seen cache, it is delivered/logged locally, and it is neither
rebroadcast nor uplinked. -/
theorem missing_ttl_treated_as_terminal (n : NodeId)
    (c : Relay.SeenCache) (msg : Msg) (now : Int) (mid : MsgId)
    (hid : msg.id = some mid) (hne : mid ≠ "") (hsrc : msg.src ≠ none)
    (httl : msg.ttl = none) (hfresh : Relay.seenLookup c mid = none) :
    Relay.handle_message n c msg now = ⟨(mid, now) :: c, [], [], true⟩ :=
  Relay.handle_message_terminal n c msg now mid hid hne hsrc hfresh
    (by simp [httl])

/-- Witness for C9 at a ttl-less alert-shaped message. -/
theorem missing_ttl_treated_as_terminal_witness :
    ((⟨some "m3", some "Sentry_001", none, none, none, none, none⟩ :
        Msg).id = some "m3"
    ∧ "m3" ≠ ""
    ∧ (⟨some "m3", some "Sentry_001", none, none, none, none, none⟩ :
        Msg).src ≠ none
    ∧ (⟨some "m3", some "Sentry_001", none, none, none, none, none⟩ :
        Msg).ttl = none
    ∧ Relay.seenLookup [] "m3" = none)
    ∧ Relay.handle_message "Relay_001" []
        (⟨some "m3", some "Sentry_001", none, none, none, none, none⟩ :
          Msg) 4
      = ⟨[("m3", 4)], [], [], true⟩ :=
  ⟨⟨rfl, by decide, by decide, rfl, rfl⟩,
    missing_ttl_treated_as_terminal "Relay_001" [] _ 4 "m3" rfl
      (by decide) (by decide) rfl rfl⟩

/-- C4 counterexample: `send_new` broadcasts the fresh message without
recording its id in the seen cache (`seen_messages` is neither read nor
written by `send_new`, as its type shows), so when the originating node
receives its own origination back (same id, ttl still 8),
`should_accept` passes it and `handle_message` performs a second
`broadcast_send` — refuting the claim that origination followed by
reception of the same id never produces a second broadcast. -/
theorem originator_rebroadcasts_own_echo_cex :
    Relay.send_new "Relay_001" ⟨none, none⟩ "u1"
        ⟨some "hello", none, none⟩ 8 0
      = [Relay.new_message "Relay_001" ⟨none, none⟩ "u1"
          ⟨some "hello", none, none⟩ 8 0]
    ∧ (Relay.handle_message "Relay_001" []
        (Relay.new_message "Relay_001" ⟨none, none⟩ "u1"
          ⟨some "hello", none, none⟩ 8 0) 1).broadcasts ≠ [] :=
  ⟨rfl, by decide⟩

/-- C4 amended: origination does not pass through the dedup path, so
the first received copy of the originated id is accepted and, when
ttl > 0, re-forwarded once; the reception does record the id, so every
copy of it received afterwards produces no broadcast. -/
theorem originator_echo_forwarded_once_then_deduped (n : NodeId)
    (loc : Location) (f : MsgId) (p : Payload) (ttl t0 t1 t2 : Int)
    (c : Relay.SeenCache) (hf : f ≠ "")
    (hfresh : Relay.seenLookup c f = none) (msg2 : Msg)
    (hid2 : msg2.id = some f) :
    Relay.send_new n loc f p ttl t0
        = [Relay.new_message n loc f p ttl t0]
    ∧ (0 < ttl →
        (Relay.handle_message n c (Relay.new_message n loc f p ttl t0)
          t1).broadcasts ≠ [])
    ∧ (Relay.handle_message n
        (Relay.handle_message n c (Relay.new_message n loc f p ttl t0)
          t1).cache msg2 t2).broadcasts = [] := by
  have hcache : (Relay.handle_message n c
      (Relay.new_message n loc f p ttl t0) t1).cache = (f, t1) :: c := by
    rcases le_or_lt ttl 0 with h | h
    · rw [Relay.handle_message_terminal n c _ t1 f rfl hf
        (by simp [Relay.new_message]) hfresh (by exact h)]
    · rw [Relay.handle_message_forward n c _ t1 f rfl hf
        (by simp [Relay.new_message]) hfresh (by exact h)]
  refine ⟨rfl, ?_, ?_⟩
  · intro httl
    rw [Relay.handle_message_forward n c _ t1 f rfl hf
      (by simp [Relay.new_message]) hfresh (by exact httl)]
    simp
  · rw [hcache]
    cases hsrc2 : msg2.src with
    | none =>
      rw [Relay.handle_message_malformed n _ msg2 t2 (Or.inr hsrc2)]
    | some s2 =>
      rw [Relay.handle_message_duplicate n _ msg2 t2 f hid2 hf
        (by simp [hsrc2])
        (by rw [Relay.seenLookup_cons_self]; rfl)]

/-- Witness for the amended C4: the node originates `"u1"` with ttl 8,
then receives its own broadcast back. -/
theorem originator_echo_forwarded_once_then_deduped_witness :
    ("u1" ≠ "" ∧ Relay.seenLookup [] "u1" = none
    ∧ (Relay.new_message "Relay_001" ⟨none, none⟩ "u1"
        ⟨some "hello", none, none⟩ 8 0).id = some "u1")
    ∧ (Relay.send_new "Relay_001" ⟨none, none⟩ "u1"
          ⟨some "hello", none, none⟩ 8 0
        = [Relay.new_message "Relay_001" ⟨none, none⟩ "u1"
            ⟨some "hello", none, none⟩ 8 0]
      ∧ (0 < (8 : Int) →
          (Relay.handle_message "Relay_001" []
            (Relay.new_message "Relay_001" ⟨none, none⟩ "u1"
              ⟨some "hello", none, none⟩ 8 0) 1).broadcasts ≠ [])
      ∧ (Relay.handle_message "Relay_001"
          (Relay.handle_message "Relay_001" []
            (Relay.new_message "Relay_001" ⟨none, none⟩ "u1"
              ⟨some "hello", none, none⟩ 8 0) 1).cache
          (Relay.new_message "Relay_001" ⟨none, none⟩ "u1"
            ⟨some "hello", none, none⟩ 8 0) 2).broadcasts = []) :=
  ⟨⟨by decide, rfl, rfl⟩,
    originator_echo_forwarded_once_then_deduped "Relay_001" ⟨none, none⟩
      "u1" ⟨some "hello", none, none⟩ 8 0 1 2 [] (by decide) rfl _ rfl⟩

/-! ### Helper lemmas about the cooldown table -/

namespace Base

theorem alertLookup_map_self (s : AlertState) (n : NodeId) (t : Int)
    (h : (alertLookup s n).isSome) :
    alertLookup (s.map (fun e => if e.1 = n then (n, t) else e)) n
      = some t := by
  induction s with
  | nil => simp [alertLookup] at h
  | cons e tl ih =>
    by_cases he : e.1 = n
    · simp [List.map_cons, he, alertLookup]
    · rw [alertLookup] at h
      simp only [he, if_false] at h
      simp [List.map_cons, he, alertLookup, ih h]

theorem alertLookup_map_other (s : AlertState) (n : NodeId) (t : Int)
    (m : NodeId) (hmn : m ≠ n) :
    alertLookup (s.map (fun e => if e.1 = n then (n, t) else e)) m
      = alertLookup s m := by
  have hnm : ¬(n = m) := fun hc => hmn hc.symm
  induction s with
  | nil => rfl
  | cons e tl ih =>
    by_cases he : e.1 = n
    · have hem : ¬(e.1 = m) := by rw [he]; exact hnm
      simp [List.map_cons, he, alertLookup, hnm, hem, ih]
    · simp only [List.map_cons, he, if_false]
      rw [alertLookup, alertLookup, ih]

theorem alertLookup_set_self (s : AlertState) (n : NodeId) (t : Int) :
    alertLookup (alertSet s n t) n = some t := by
  rw [alertSet]
  by_cases h : (alertLookup s n).isSome
  · rw [if_pos h]
    exact alertLookup_map_self s n t h
  · rw [if_neg h]
    simp [alertLookup]

theorem alertLookup_set_other (s : AlertState) (n : NodeId) (t : Int)
    (m : NodeId) (hmn : m ≠ n) :
    alertLookup (alertSet s n t) m = alertLookup s m := by
  rw [alertSet]
  by_cases h : (alertLookup s n).isSome
  · rw [if_pos h]
    exact alertLookup_map_other s n t m hmn
  · rw [if_neg h]
    have hnm : ¬(n = m) := fun hc => hmn hc.symm
    simp [alertLookup, hnm]

/-- The boolean decision of `should_alert` depends only on the entry
recorded for the queried node id. -/
theorem should_alert_fst_congr (s s' : AlertState) (n : NodeId)
    (now : Int) (h : alertLookup s' n = alertLookup s n) :
    (should_alert s' n now).1 = (should_alert s n now).1 := by
  cases hl : alertLookup s n with
  | none => simp [should_alert, h.trans hl, hl]
  | some last =>
    simp only [should_alert, h.trans hl, hl]
    by_cases hge : now - last ≥ ALERT_COOLDOWN_SECONDS <;> simp [hge]

end Base

/-! ### Claim theorems about the base station (API-gateway variant) -/

/-- C5 counterexample: at exactly the cooldown boundary
(`now - last = 60`) the code's `>=` comparison makes `should_alert`
return true although the elapsed time does not strictly exceed the 60 s
window, refuting the claim's "elapsed time exceeds the cooldown window"
condition. -/
theorem should_alert_true_at_exact_boundary_cex :
    (Base.should_alert [("Sentry_001", 0)] "Sentry_001" 60).1 = true
    ∧ ¬((60 : Int) - 0 > Base.ALERT_COOLDOWN_SECONDS) :=
  ⟨by decide, by decide⟩

/-- C5 amended: `should_alert(src)` returns true iff there is no
recorded last-trigger time for `src` or the elapsed time is at least
the cooldown window (`>=`, not strictly greater); on true it records
`now` for `src`, on false it leaves the table unchanged; and a call for
one node id never modifies another id's entry nor reads it (the
decision depends only on the queried id's entry). -/
theorem should_alert_cooldown_spec (s : Base.AlertState) (n : NodeId)
    (now : Int) :
    ((Base.should_alert s n now).1 = true ↔
      ∀ last, Base.alertLookup s n = some last →
        now - last ≥ Base.ALERT_COOLDOWN_SECONDS)
    ∧ ((Base.should_alert s n now).1 = true →
        Base.alertLookup (Base.should_alert s n now).2 n = some now)
    ∧ ((Base.should_alert s n now).1 = false →
        (Base.should_alert s n now).2 = s)
    ∧ (∀ m, m ≠ n →
        Base.alertLookup (Base.should_alert s n now).2 m
          = Base.alertLookup s m)
    ∧ (∀ s', Base.alertLookup s' n = Base.alertLookup s n →
        (Base.should_alert s' n now).1 = (Base.should_alert s n now).1) := by
  refine ⟨?_, ?_, ?_, ?_,
    fun s' h => Base.should_alert_fst_congr s s' n now h⟩
  · cases hl : Base.alertLookup s n with
    | none => simp [Base.should_alert, hl]
    | some last =>
      simp only [Base.should_alert, hl]
      by_cases hge : now - last ≥ Base.ALERT_COOLDOWN_SECONDS <;>
        simp [hge]
  · cases hl : Base.alertLookup s n with
    | none =>
      intro _
      simp only [Base.should_alert, hl]
      exact Base.alertLookup_set_self s n now
    | some last =>
      by_cases hge : now - last ≥ Base.ALERT_COOLDOWN_SECONDS
      · intro _
        simp only [Base.should_alert, hl, if_pos hge]
        exact Base.alertLookup_set_self s n now
      · simp [Base.should_alert, hl, hge]
  · cases hl : Base.alertLookup s n with
    | none => simp [Base.should_alert, hl]
    | some last =>
      by_cases hge : now - last ≥ Base.ALERT_COOLDOWN_SECONDS <;>
        simp [Base.should_alert, hl, hge]
  · intro m hmn
    cases hl : Base.alertLookup s n with
    | none =>
      simp only [Base.should_alert, hl]
      exact Base.alertLookup_set_other s n now m hmn
    | some last =>
      by_cases hge : now - last ≥ Base.ALERT_COOLDOWN_SECONDS
      · simp only [Base.should_alert, hl, if_pos hge]
        exact Base.alertLookup_set_other s n now m hmn
      · simp [Base.should_alert, hl, hge]

/-- Witness for the amended C5 at a table holding an entry for another
node `"B"`, queried for `"A"`. -/
theorem should_alert_cooldown_spec_witness :
    ((Base.should_alert [("B", 0)] "A" 5).1 = true ↔
      ∀ last, Base.alertLookup [("B", 0)] "A" = some last →
        (5 : Int) - last ≥ Base.ALERT_COOLDOWN_SECONDS)
    ∧ ((Base.should_alert [("B", 0)] "A" 5).1 = true →
        Base.alertLookup (Base.should_alert [("B", 0)] "A" 5).2 "A"
          = some 5)
    ∧ ((Base.should_alert [("B", 0)] "A" 5).1 = false →
        (Base.should_alert [("B", 0)] "A" 5).2 = [("B", 0)])
    ∧ (∀ m, m ≠ "A" →
        Base.alertLookup (Base.should_alert [("B", 0)] "A" 5).2 m
          = Base.alertLookup [("B", 0)] m)
    ∧ (∀ s', Base.alertLookup s' "A" = Base.alertLookup [("B", 0)] "A" →
        (Base.should_alert s' "A" 5).1
          = (Base.should_alert [("B", 0)] "A" 5).1) :=
  should_alert_cooldown_spec [("B", 0)] "A" 5

/-- C6: for every uplinked alert message the base station builds and
submits an incident whatever the cooldown state, and the submitted
content is a function of the message and the clock only — identical
whether or not the local annunciation was suppressed. -/
theorem incident_submission_cooldown_independent
    (s s' : Base.AlertState) (msg : Msg) (now : Int)
    (halert : (msg.payload.getD emptyPayload).type = some "alert") :
    (Base.handle_message s msg now).incident
        = some (Base.buildIncident msg now)
    ∧ (Base.handle_message s msg now).incident
        = (Base.handle_message s' msg now).incident := by
  constructor <;> simp [Base.handle_message, halert]

/-- Witness for C6: the same alert message handled with an empty
cooldown table and with a table whose cooldown for the source is still
active yields the same submitted incident. -/
theorem incident_submission_cooldown_independent_witness :
    ((⟨some "m4", some "Sentry_001", none, some 8, none,
        some ["Sentry_001"],
        some ⟨some "alert", none, none⟩⟩ : Msg).payload.getD
          emptyPayload).type = some "alert"
    ∧ ((Base.handle_message [] (⟨some "m4", some "Sentry_001", none,
          some 8, none, some ["Sentry_001"],
          some ⟨some "alert", none, none⟩⟩ : Msg) 10).incident
        = some (Base.buildIncident (⟨some "m4", some "Sentry_001", none,
            some 8, none, some ["Sentry_001"],
            some ⟨some "alert", none, none⟩⟩ : Msg) 10)
      ∧ (Base.handle_message [] (⟨some "m4", some "Sentry_001", none,
            some 8, none, some ["Sentry_001"],
            some ⟨some "alert", none, none⟩⟩ : Msg) 10).incident
        = (Base.handle_message [("Sentry_001", 0)]
            (⟨some "m4", some "Sentry_001", none, some 8, none,
              some ["Sentry_001"],
              some ⟨some "alert", none, none⟩⟩ : Msg) 10).incident) :=
  ⟨rfl, incident_submission_cooldown_independent [] [("Sentry_001", 0)]
    _ 10 rfl⟩

/-- C7: for a risk score `q ∈ [0,1]` the submitted severity is exactly
`max(1, min(10, int(q * 10)))` with Python's truncating `int`, in both
base-station implementations; the boundary cases are risk 0 → severity
1, risk 1 → severity 10 and risk 0.85 → severity 8 (truncation, not
rounding-up); with no risk present the API-gateway station falls back to
the default risk 0.8 (yielding the fixed severity 8) and the
mongo-direct station to the fixed severity 8. -/
theorem severity_mapping (q : ℚ) (msg : Msg) (now : Int)
    (hrisk : (msg.payload.getD emptyPayload).risk = some q)
    (h0 : 0 ≤ q) (h1 : q ≤ 1) :
    (Base.buildIncident msg now).severity
        = max 1 (min 10 (pyTrunc (q * 10)))
    ∧ Mongo.mongoSeverity (some q) = max 1 (min 10 (pyTrunc (q * 10)))
    ∧ max 1 (min 10 (pyTrunc ((0 : ℚ) * 10))) = 1
    ∧ max 1 (min 10 (pyTrunc ((1 : ℚ) * 10))) = 10
    ∧ max 1 (min 10 (pyTrunc ((17 / 20 : ℚ) * 10))) = 8
    ∧ (∀ (msg' : Msg) (now' : Int),
        (msg'.payload.getD emptyPayload).risk = none →
          (Base.buildIncident msg' now').severity = 8)
    ∧ Mongo.mongoSeverity none = 8 := by
  refine ⟨?_, ?_, ?_, ?_, ?_, ?_, rfl⟩
  · simp [Base.buildIncident, hrisk]
  · simp [Mongo.mongoSeverity, h0, h1]
  · with_unfolding_all decide
  · with_unfolding_all decide
  · with_unfolding_all decide
  · intro msg' now' hnone
    have h8 : max 1 (min 10 (pyTrunc ((4 / 5 : ℚ) * 10))) = 8 := by
      with_unfolding_all decide
    simpa [Base.buildIncident, hnone] using h8

/-- Witness for C7 at risk 0.85 carried by a concrete alert message. -/
theorem severity_mapping_witness :
    (((⟨some "m5", some "Sentry_001", none, some 8, none, none,
        some ⟨some "alert", some (17 / 20), none⟩⟩ : Msg).payload.getD
          emptyPayload).risk = some (17 / 20 : ℚ)
    ∧ (0 : ℚ) ≤ 17 / 20 ∧ (17 / 20 : ℚ) ≤ 1)
    ∧ ((Base.buildIncident (⟨some "m5", some "Sentry_001", none, some 8,
          none, none, some ⟨some "alert", some (17 / 20), none⟩⟩ : Msg)
            3).severity
        = max 1 (min 10 (pyTrunc ((17 / 20 : ℚ) * 10)))
      ∧ Mongo.mongoSeverity (some (17 / 20 : ℚ))
          = max 1 (min 10 (pyTrunc ((17 / 20 : ℚ) * 10)))
      ∧ max 1 (min 10 (pyTrunc ((0 : ℚ) * 10))) = 1
      ∧ max 1 (min 10 (pyTrunc ((1 : ℚ) * 10))) = 10
      ∧ max 1 (min 10 (pyTrunc ((17 / 20 : ℚ) * 10))) = 8
      ∧ (∀ (msg' : Msg) (now' : Int),
          (msg'.payload.getD emptyPayload).risk = none →
            (Base.buildIncident msg' now').severity = 8)
      ∧ Mongo.mongoSeverity none = 8) :=
  ⟨⟨rfl, by with_unfolding_all decide, by with_unfolding_all decide⟩,
    severity_mapping (17 / 20) _ 3 rfl (by with_unfolding_all decide)
      (by with_unfolding_all decide)⟩

/-! ### Claim theorems comparing the two base stations -/

/-- Clamping to [1,10] is idempotent. -/
theorem clamp_idem (x : Int) :
    max 1 (min 10 (max 1 (min 10 x))) = max 1 (min 10 x) := by
  rcases le_total x 1 with h | h <;> rcases le_total x 10 with h' | h' <;>
    simp [min_def, max_def] <;> omega

/-- C10 counterexample: with the source still inside the cooldown
window the API-gateway station suppresses local annunciation while the
mongo-direct station (which has no cooldown table at all) still
annunciates; and for the numeric but out-of-range risk value 5 the
API-gateway station computes severity 10 while the mongo-direct station
falls back to the fixed severity 8. -/
theorem base_station_implementations_diverge_cex :
    (Base.handle_message [("Sentry_001", 0)]
        (⟨some "m6", some "Sentry_001", none, some 8, none,
          some ["Sentry_001"],
          some ⟨some "alert", some 5, none⟩⟩ : Msg) 10).alertTriggered
      = false
    ∧ (Mongo.handle_message true
        (⟨some "m6", some "Sentry_001", none, some 8, none,
          some ["Sentry_001"],
          some ⟨some "alert", some 5, none⟩⟩ : Msg)).alertTriggered
      = true
    ∧ (Base.handle_message [("Sentry_001", 0)]
        (⟨some "m6", some "Sentry_001", none, some 8, none,
          some ["Sentry_001"],
          some ⟨some "alert", some 5, none⟩⟩ : Msg) 10).incident.map
          Base.Incident.severity = some 10
    ∧ (Mongo.handle_message true
        (⟨some "m6", some "Sentry_001", none, some 8, none,
          some ["Sentry_001"],
          some ⟨some "alert", some 5, none⟩⟩ : Msg)).incident.map
          Mongo.MongoIncident.severity = some 8 := by
  refine ⟨?_, ?_, ?_, ?_⟩ <;> with_unfolding_all decide

/-- C10 amended: the two base-station implementations compute the same
severity whenever the risk value is absent or lies in [0,1]; their
local-annunciation decisions coincide only outside the cooldown window,
because the mongo-direct station annunciates every alert message
unconditionally while the API-gateway station annunciates exactly when
`should_alert(src)` passes. -/
theorem base_station_agreement_on_valid_risk (s : Base.AlertState)
    (msg : Msg) (now : Int)
    (halert : (msg.payload.getD emptyPayload).type = some "alert")
    (hrisk : (msg.payload.getD emptyPayload).risk = none ∨
      ∃ q, (msg.payload.getD emptyPayload).risk = some q
        ∧ 0 ≤ q ∧ q ≤ 1) :
    (Base.handle_message s msg now).incident.map Base.Incident.severity
        = (Mongo.handle_message true msg).incident.map
            Mongo.MongoIncident.severity
    ∧ (Mongo.handle_message true msg).alertTriggered = true
    ∧ (Base.handle_message s msg now).alertTriggered
        = (Base.should_alert s (msg.src.getD "unknown") now).1 := by
  refine ⟨?_, ?_, ?_⟩
  · simp only [Base.handle_message, Mongo.handle_message, halert]
    simp only [ne_eq, not_true_eq_false, if_false, Bool.not_true,
      Bool.false_eq_true, Option.map_some]
    rcases hrisk with hnone | ⟨q, hq, h0, h1⟩
    · have h8 : max 1 (min 10 (pyTrunc ((4 / 5 : ℚ) * 10))) = 8 := by
        with_unfolding_all decide
      simp [Base.buildIncident, Mongo.mongoSeverity, hnone, h8]
    · simp [Base.buildIncident, Mongo.mongoSeverity, hq, h0, h1,
        clamp_idem]
  · simp [Mongo.handle_message, halert]
  · simp [Base.handle_message, halert]

/-- Witness for the amended C10 at a risk-0.85 alert handled with an
empty cooldown table. -/
theorem base_station_agreement_on_valid_risk_witness :
    (((⟨some "m7", some "Sentry_001", none, some 8, none,
        some ["Sentry_001"],
        some ⟨some "alert", some (17 / 20), none⟩⟩ : Msg).payload.getD
          emptyPayload).type = some "alert"
    ∧ (((⟨some "m7", some "Sentry_001", none, some 8, none,
        some ["Sentry_001"],
        some ⟨some "alert", some (17 / 20), none⟩⟩ : Msg).payload.getD
          emptyPayload).risk = none ∨
      ∃ q, ((⟨some "m7", some "Sentry_001", none, some 8, none,
          some ["Sentry_001"],
          some ⟨some "alert", some (17 / 20), none⟩⟩ : Msg).payload.getD
            emptyPayload).risk = some q ∧ 0 ≤ q ∧ q ≤ 1))
    ∧ ((Base.handle_message [] (⟨some "m7", some "Sentry_001", none,
          some 8, none, some ["Sentry_001"],
          some ⟨some "alert", some (17 / 20), none⟩⟩ : Msg)
            20).incident.map Base.Incident.severity
        = (Mongo.handle_message true (⟨some "m7", some "Sentry_001",
            none, some 8, none, some ["Sentry_001"],
            some ⟨some "alert", some (17 / 20), none⟩⟩ :
              Msg)).incident.map Mongo.MongoIncident.severity
      ∧ (Mongo.handle_message true (⟨some "m7", some "Sentry_001", none,
          some 8, none, some ["Sentry_001"],
          some ⟨some "alert", some (17 / 20), none⟩⟩ :
            Msg)).alertTriggered = true
      ∧ (Base.handle_message [] (⟨some "m7", some "Sentry_001", none,
          some 8, none, some ["Sentry_001"],
          some ⟨some "alert", some (17 / 20), none⟩⟩ : Msg)
            20).alertTriggered
        = (Base.should_alert []
            ((⟨some "m7", some "Sentry_001", none, some 8, none,
              some ["Sentry_001"],
              some ⟨some "alert", some (17 / 20), none⟩⟩ :
                Msg).src.getD "unknown") 20).1) :=
  ⟨⟨rfl, Or.inr ⟨17 / 20, rfl, by with_unfolding_all decide,
      by with_unfolding_all decide⟩⟩,
    base_station_agreement_on_valid_risk [] _ 20 rfl
      (Or.inr ⟨17 / 20, rfl, by with_unfolding_all decide,
        by with_unfolding_all decide⟩)⟩

end Mesh
